import Mathlib

/-!
Shallow embedding of the pxng frontend core: the chat pipeline
(`fetchMessages` / `sendMessage` from ChatInterface), the source-list
renderer, the router table from App, and the session guard.

State updates of the React component are modelled as pure functions from
the component state (plus the backend reply and clock readings, which are
inputs of the corresponding render pass) to the next state.  ISO timestamp
strings are modelled by their epoch-millisecond value (an `Int`), which is
exactly the key the code compares and sorts by via `new Date(...)`.
-/

/-- A retrieval source attached to a RAG response message, with the fields
the renderer in ChatInterface reads (`type`, `sender_id`, `document_name`,
`chunk_index`). -/
structure Source where
  type : String
  sender_id : String
  document_name : String
  chunk_index : Nat
deriving DecidableEq, Repr

/-- A chat message as built and displayed by ChatInterface: `id`, `content`,
`sender_id`, `recipient_id`, `timestamp` (epoch ms), and the optional
`sources` list present only on RAG responses. -/
structure Message where
  id : String
  content : String
  sender_id : String
  recipient_id : String
  timestamp : Int
  sources : Option (List Source)
deriving DecidableEq, Repr

/-- The `currentUser` prop of ChatInterface (only `id` is used by the
pipeline). -/
structure User where
  id : String
deriving DecidableEq, Repr

/-- The `recipient` prop of ChatInterface. -/
structure Recipient where
  id : String
  name : String
deriving DecidableEq, Repr

/-- The mutable state of the ChatInterface component: `messages`,
`newMessage`, `loading`, `queryMode`. -/
structure ChatState where
  messages : List Message
  newMessage : String
  loading : Bool
  queryMode : Bool
deriving DecidableEq, Repr

/-- The JavaScript whitespace set used by `String.prototype.trim`
(WhiteSpace and LineTerminator code points). -/
def isJsWhitespace (c : Char) : Bool :=
  decide (c.toNat ∈ [0x09, 0x0A, 0x0B, 0x0C, 0x0D, 0x20, 0xA0, 0x1680,
    0x2000, 0x2001, 0x2002, 0x2003, 0x2004, 0x2005, 0x2006, 0x2007, 0x2008,
    0x2009, 0x200A, 0x2028, 0x2029, 0x202F, 0x205F, 0x3000, 0xFEFF])

/-- JavaScript `s.trim()`: strip leading and trailing whitespace. -/
def jsTrim (s : String) : String :=
  String.mk
    (((s.data.dropWhile isJsWhitespace).reverse.dropWhile isJsWhitespace).reverse)

/-- The comparison key of the sort in `fetchMessages`:
`new Date(a.timestamp) - new Date(b.timestamp) <= 0`. -/
def tsLe (a b : Message) : Prop := a.timestamp ≤ b.timestamp

instance : DecidableRel tsLe := fun a b =>
  show Decidable (a.timestamp ≤ b.timestamp) from inferInstance

instance : IsTotal Message tsLe :=
  ⟨fun a b => le_total a.timestamp b.timestamp⟩

instance : IsTrans Message tsLe :=
  ⟨fun _ _ _ hab hbc => le_trans hab hbc⟩

/-- The sort in `fetchMessages`: `response.data.sort((a, b) =>
new Date(a.timestamp) - new Date(b.timestamp))`.  JavaScript
`Array.prototype.sort` is stable, modelled by stable insertion sort. -/
def sortByTimestamp (l : List Message) : List Message :=
  List.insertionSort tsLe l

/-- `fetchMessages` from ChatInterface: on a successful GET the store is
replaced by the sorted response and the loading flag cleared; on error the
store is untouched and the loading flag cleared. -/
def fetchMessages (st : ChatState) (resp : Except Unit (List Message)) :
    ChatState :=
  match resp with
  | Except.ok data =>
      { st with messages := sortByTimestamp data, loading := false }
  | Except.error _ =>
      { st with loading := false }

/-- Clock readings taken during one `sendMessage` call: the two `Date.now()`
values used for the temporary ids and the two `new Date().toISOString()`
values used for the local timestamps. -/
structure SendClock where
  idEcho : Nat
  idResp : Nat
  tEcho : Int
  tResp : Int
deriving DecidableEq, Repr

/-- The HTTP request a `sendMessage` call issues, if any. -/
inductive ApiRequest where
  | postMessages (content : String) (recipient_id : String)
      (recipient_type : String)
  | postRagQuery (query : String)
deriving DecidableEq, Repr

/-- `sendMessage` from ChatInterface.  Returns the next component state and
the request issued (`none` when the trimmed input is empty and the handler
returns early).  `ragReply` / `directReply` is the outcome of the POST the
taken branch performs; only the branch selected by `queryMode` consults its
reply. -/
def sendMessage (currentUser : User) (recipient : Recipient)
    (recipientType : String) (st : ChatState) (clk : SendClock)
    (ragReply : Except Unit (String × List Source))
    (directReply : Except Unit Message) : ChatState × Option ApiRequest :=
  if jsTrim st.newMessage = "" then (st, none)
  else if st.queryMode then
    match ragReply with
    | Except.ok (answer, sources) =>
        let userQuery : Message :=
          { id := "temp-" ++ toString clk.idEcho,
            content := st.newMessage,
            sender_id := currentUser.id,
            recipient_id := recipient.id,
            timestamp := clk.tEcho,
            sources := none }
        let ragResponse : Message :=
          { id := "rag-" ++ toString clk.idResp,
            content := answer,
            sender_id := "rag-assistant",
            recipient_id := recipient.id,
            timestamp := clk.tResp,
            sources := some sources }
        ({ st with messages := st.messages ++ [userQuery, ragResponse],
                   newMessage := "",
                   loading := false },
         some (ApiRequest.postRagQuery st.newMessage))
    | Except.error _ =>
        ({ st with loading := false },
         some (ApiRequest.postRagQuery st.newMessage))
  else
    match directReply with
    | Except.ok m =>
        ({ st with messages := st.messages ++ [m],
                   newMessage := "",
                   loading := false },
         some (ApiRequest.postMessages st.newMessage recipient.id
           recipientType))
    | Except.error _ =>
        ({ st with loading := false },
         some (ApiRequest.postMessages st.newMessage recipient.id
           recipientType))

/-- One itemized entry of the source list under a RAG response. -/
def renderSource (s : Source) : String :=
  if s.type = "message" then "Message from " ++ s.sender_id
  else if s.type = "document_chunk" then
    s.document_name ++ " (chunk " ++ toString s.chunk_index ++ ")"
  else "Unknown source"

/-- The source list under a RAG response: `sources.slice(0, 3)` itemized,
then a summary entry when `sources.length > 3`. -/
def renderSources (sources : List Source) : List String :=
  (sources.take 3).map renderSource ++
    (if 3 < sources.length then
      ["+" ++ toString (sources.length - 3) ++ " more sources"]
    else [])

/-- What a guard render pass produces: either a redirect or the wrapped
children. -/
inductive Rendered (α : Type) where
  | redirect (dest : String)
  | content (c : α)
deriving DecidableEq, Repr

/-- Modelled from the spec: the implementation of `ProtectedRoute`
(pages/auth/ProtectedRoute) is not in the repository snapshot; only its use
in App is.  Spec §3/§4.1: protected navigation is permitted
iff the session token is present and non-empty; an absent or empty token
issues a redirect to the login view without throwing, otherwise the
children render. -/
def protectedRoute {α : Type} (token : Option String) (children : α) :
    Rendered α :=
  match token with
  | none => Rendered.redirect "/login"
  | some t =>
      if t = "" then Rendered.redirect "/login" else Rendered.content children

/-- The page components of the route table in App. -/
inductive Page where
  | login
  | signup
  | dashboard
  | createGroup
  | groupPage (groupId : String)
  | createCommunity
  | communityPage (communityId : String)
deriving DecidableEq, Repr

/-- What a matched route renders: a page or a `Navigate` redirect. -/
inductive RouteResult where
  | page (p : Page)
  | redirect (dest : String)
deriving DecidableEq, Repr

/-- Route matching for the `Routes` table in App.  A URL path is its list
of segments; a `none` result would be the framework's no-match (404) state.
Static child segments (`groups/create`, `communities/create`) rank above
the dynamic `:groupId` / `:communityId` patterns; the index route under `/`
and the `*` fallback both navigate to `/dashboard`. -/
def matchRoute (segs : List String) : Option RouteResult :=
  match segs with
  | [] => some (RouteResult.redirect "/dashboard")
  | [s] =>
      if s = "login" then some (RouteResult.page Page.login)
      else if s = "signup" then some (RouteResult.page Page.signup)
      else if s = "dashboard" then some (RouteResult.page Page.dashboard)
      else some (RouteResult.redirect "/dashboard")
  | [a, b] =>
      if a = "groups" then
        if b = "create" then some (RouteResult.page Page.createGroup)
        else some (RouteResult.page (Page.groupPage b))
      else if a = "communities" then
        if b = "create" then some (RouteResult.page Page.createCommunity)
        else some (RouteResult.page (Page.communityPage b))
      else some (RouteResult.redirect "/dashboard")
  | _ => some (RouteResult.redirect "/dashboard")

/-- The closed set of defined path patterns in the route table. -/
def definedPath (segs : List String) : Prop :=
  segs = ["login"] ∨ segs = ["signup"] ∨ segs = ["dashboard"] ∨
  segs = ["groups", "create"] ∨ (∃ g, segs = ["groups", g]) ∨
  segs = ["communities", "create"] ∨ (∃ c, segs = ["communities", c])

/-! Helper lemmas. -/

theorem jsTrim_of_all_whitespace {s : String}
    (h : s.data.all isJsWhitespace = true) : jsTrim s = "" := by
  have h1 : s.data.dropWhile isJsWhitespace = [] := by
    rw [List.dropWhile_eq_nil_iff]
    exact List.all_eq_true.mp h
  simp [jsTrim, h1]

theorem sorted_append_one {l : List Message} {m : Message}
    (hl : List.Sorted tsLe l) (hm : ∀ x ∈ l, x.timestamp ≤ m.timestamp) :
    List.Sorted tsLe (l ++ [m]) := by
  refine List.pairwise_append.mpr ⟨hl, List.pairwise_singleton _ _, ?_⟩
  intro a ha b hb
  rw [List.mem_singleton] at hb
  subst hb
  exact hm a ha

theorem sorted_append_two {l : List Message} {e f : Message}
    (hl : List.Sorted tsLe l)
    (he : ∀ x ∈ l, x.timestamp ≤ e.timestamp)
    (hef : e.timestamp ≤ f.timestamp) :
    List.Sorted tsLe (l ++ [e, f]) := by
  refine List.pairwise_append.mpr ⟨hl, ?_, ?_⟩
  · refine List.pairwise_cons.mpr ⟨?_, List.pairwise_singleton _ _⟩
    intro b hb
    rw [List.mem_singleton] at hb
    subst hb
    exact hef
  · intro a ha b hb
    rw [List.mem_cons, List.mem_singleton] at hb
    rcases hb with hb | hb <;> subst hb
    · exact he a ha
    · exact le_trans (he a ha) hef

/-! Claim theorems. -/

/-- C1: for every recipient pair, a successful `loadHistory`
(`fetchMessages`) leaves the store holding a list that is sorted
non-decreasing by timestamp and is exactly the backend response reordered
(the store contents are replaced by the sorted response). -/
theorem C1_loadHistory_sorted (recipient : Recipient)
    (recipientType : String) (st : ChatState) (data : List Message) :
    List.Sorted tsLe (fetchMessages st (Except.ok data)).messages ∧
    (fetchMessages st (Except.ok data)).messages.Perm data :=
  ⟨List.sorted_insertionSort tsLe data, List.perm_insertionSort tsLe data⟩

/-- C4: for every mode, `sendMessage` with empty or whitespace-only input
returns early: the component state is unchanged and no request is issued. -/
theorem C4_whitespace_noop (u : User) (r : Recipient) (rt : String)
    (st : ChatState) (clk : SendClock)
    (rg : Except Unit (String × List Source)) (dr : Except Unit Message)
    (h : st.newMessage.data.all isJsWhitespace = true) :
    sendMessage u r rt st clk rg dr = (st, none) := by
  simp [sendMessage, jsTrim_of_all_whitespace h]

/-- C4 witness: a three-space input in either mode is a no-op. -/
theorem C4_whitespace_noop_witness :
    sendMessage ⟨"u1"⟩ ⟨"r1", "R"⟩ "user"
        ⟨[], "   ", false, false⟩ ⟨0, 0, 0, 0⟩
        (Except.ok ("a", [])) (Except.ok ⟨"m", "c", "s", "r", 0, none⟩)
      = (⟨[], "   ", false, false⟩, none) :=
  C4_whitespace_noop ⟨"u1"⟩ ⟨"r1", "R"⟩ "user"
    ⟨[], "   ", false, false⟩ ⟨0, 0, 0, 0⟩
    (Except.ok ("a", [])) (Except.ok ⟨"m", "c", "s", "r", 0, none⟩)
    (by decide)

/-- C6: a failed `loadHistory` leaves the store unchanged, and the loading
flag ends up cleared on both the success and the failure path. -/
theorem C6_fetch_failure_store_unchanged (st : ChatState)
    (data : List Message) :
    (fetchMessages st (Except.error ())).messages = st.messages ∧
    (fetchMessages st (Except.error ())).loading = false ∧
    (fetchMessages st (Except.ok data)).loading = false := by
  simp [fetchMessages]

/-- C10: a failed send in either mode (the POST of the taken branch throws)
leaves the message store unchanged: nothing is appended on the failure
path. -/
theorem C10_send_failure_store_unchanged (u : User) (r : Recipient)
    (rt : String) (st : ChatState) (clk : SendClock) :
    (sendMessage u r rt st clk (Except.error ()) (Except.error ())).1.messages
      = st.messages := by
  by_cases h : jsTrim st.newMessage = "" <;>
    by_cases hq : st.queryMode <;> simp [sendMessage, h, hq]

/-- C2 counterexample: starting from a sorted store whose last message has
timestamp 10, a successful direct-mode send whose server-assigned timestamp
is 5 leaves the store unsorted, and a successful query-mode send whose
local clock reads 5 does too: appending without re-sorting does not
preserve the invariant for arbitrary timestamps. -/
theorem C2_unsorted_counterexample :
    ¬ List.Sorted tsLe
      ((sendMessage ⟨"u"⟩ ⟨"r", "R"⟩ "user"
          ⟨[⟨"m1", "old", "u", "r", 10, none⟩], "hi", false, false⟩
          ⟨0, 0, 5, 5⟩ (Except.error ())
          (Except.ok ⟨"m2", "new", "v", "r", 5, none⟩)).1.messages) ∧
    ¬ List.Sorted tsLe
      ((sendMessage ⟨"u"⟩ ⟨"r", "R"⟩ "user"
          ⟨[⟨"m1", "old", "u", "r", 10, none⟩], "hi", false, true⟩
          ⟨0, 0, 5, 6⟩ (Except.ok ("ans", [])) (Except.error ())).1.messages) := by
  decide

/-- C2 (amended): the sorted-ascending-by-timestamp invariant is
established by `loadHistory` unconditionally, and preserved by a successful
direct-mode send provided the server-assigned timestamp is at least every
timestamp in the store, and by a successful query-mode send provided the
echo's local timestamp is at least every timestamp in the store and the
response's local timestamp is at least the echo's. -/
theorem C2_sorted_invariant (u : User) (r : Recipient) (rt : String)
    (st : ChatState) (clk : SendClock) (m : Message) (answer : String)
    (sources : List Source) (data : List Message)
    (rg : Except Unit (String × List Source)) (dr : Except Unit Message)
    (hs : List.Sorted tsLe st.messages)
    (hm : ∀ x ∈ st.messages, x.timestamp ≤ m.timestamp)
    (he : ∀ x ∈ st.messages, x.timestamp ≤ clk.tEcho)
    (her : clk.tEcho ≤ clk.tResp) :
    List.Sorted tsLe (fetchMessages st (Except.ok data)).messages ∧
    List.Sorted tsLe
      ((sendMessage u r rt { st with queryMode := false } clk rg
        (Except.ok m)).1.messages) ∧
    List.Sorted tsLe
      ((sendMessage u r rt { st with queryMode := true } clk
        (Except.ok (answer, sources)) dr).1.messages) := by
  refine ⟨List.sorted_insertionSort tsLe data, ?_, ?_⟩
  · by_cases h : jsTrim st.newMessage = ""
    · simpa [sendMessage, h] using hs
    · simpa [sendMessage, h] using sorted_append_one hs hm
  · by_cases h : jsTrim st.newMessage = ""
    · simpa [sendMessage, h] using hs
    · simpa [sendMessage, h] using sorted_append_two hs he her

/-- C2 witness: the amended invariant at a concrete store, reload, direct
send and query send. -/
theorem C2_sorted_invariant_witness :
    List.Sorted tsLe
      (fetchMessages ⟨[⟨"m0", "c", "u", "r", 1, none⟩], "hi", false, false⟩
        (Except.ok [⟨"b", "c", "u", "r", 5, none⟩,
          ⟨"a", "c", "u", "r", 4, none⟩])).messages ∧
    List.Sorted tsLe
      ((sendMessage ⟨"u"⟩ ⟨"r", "R"⟩ "user"
        { (⟨[⟨"m0", "c", "u", "r", 1, none⟩], "hi", false, false⟩ : ChatState)
            with queryMode := false } ⟨7, 8, 2, 3⟩ (Except.error ())
        (Except.ok ⟨"m1", "d", "v", "r", 2, none⟩)).1.messages) ∧
    List.Sorted tsLe
      ((sendMessage ⟨"u"⟩ ⟨"r", "R"⟩ "user"
        { (⟨[⟨"m0", "c", "u", "r", 1, none⟩], "hi", false, false⟩ : ChatState)
            with queryMode := true } ⟨7, 8, 2, 3⟩ (Except.ok ("a", []))
        (Except.error ())).1.messages) :=
  C2_sorted_invariant ⟨"u"⟩ ⟨"r", "R"⟩ "user"
    ⟨[⟨"m0", "c", "u", "r", 1, none⟩], "hi", false, false⟩ ⟨7, 8, 2, 3⟩
    ⟨"m1", "d", "v", "r", 2, none⟩ "a" []
    [⟨"b", "c", "u", "r", 5, none⟩, ⟨"a", "c", "u", "r", 4, none⟩]
    (Except.error ()) (Except.error ())
    (by decide) (by decide) (by decide) (by decide)

/-- C3: a successful direct-mode send appends exactly the server-returned
message; a successful query-mode send appends exactly the query echo
(temporary id, untrimmed input as content, current user as sender, local
timestamp) followed by the rag-assistant response carrying the answer and
the backend's sources. -/
theorem C3_send_appends (u : User) (r : Recipient) (rt : String)
    (st : ChatState) (clk : SendClock) (m : Message) (answer : String)
    (sources : List Source) (rg : Except Unit (String × List Source))
    (dr : Except Unit Message) (h : jsTrim st.newMessage ≠ "") :
    (sendMessage u r rt { st with queryMode := false } clk rg
        (Except.ok m)).1.messages = st.messages ++ [m] ∧
    (sendMessage u r rt { st with queryMode := true } clk
        (Except.ok (answer, sources)) dr).1.messages
      = st.messages ++
        [{ id := "temp-" ++ toString clk.idEcho,
           content := st.newMessage,
           sender_id := u.id,
           recipient_id := r.id,
           timestamp := clk.tEcho,
           sources := none },
         { id := "rag-" ++ toString clk.idResp,
           content := answer,
           sender_id := "rag-assistant",
           recipient_id := r.id,
           timestamp := clk.tResp,
           sources := some sources }] := by
  simp [sendMessage, h]

/-- C3 witness: the append shapes at a concrete state and replies. -/
theorem C3_send_appends_witness :
    (sendMessage ⟨"u"⟩ ⟨"r", "R"⟩ "user"
        { (⟨[], "hi", false, false⟩ : ChatState) with queryMode := false }
        ⟨7, 8, 2, 3⟩ (Except.error ())
        (Except.ok ⟨"m1", "d", "v", "r", 2, none⟩)).1.messages
      = [⟨"m1", "d", "v", "r", 2, none⟩] ∧
    (sendMessage ⟨"u"⟩ ⟨"r", "R"⟩ "user"
        { (⟨[], "hi", false, false⟩ : ChatState) with queryMode := true }
        ⟨7, 8, 2, 3⟩ (Except.ok ("ans", [⟨"message", "w", "", 0⟩]))
        (Except.error ())).1.messages
      = [⟨"temp-" ++ toString (7 : Nat), "hi", "u", "r", 2, none⟩,
         ⟨"rag-" ++ toString (8 : Nat), "ans", "rag-assistant", "r", 3,
           some [⟨"message", "w", "", 0⟩]⟩] :=
  C3_send_appends ⟨"u"⟩ ⟨"r", "R"⟩ "user" ⟨[], "hi", false, false⟩
    ⟨7, 8, 2, 3⟩ ⟨"m1", "d", "v", "r", 2, none⟩ "ans"
    [⟨"message", "w", "", 0⟩] (Except.error ()) (Except.error ())
    (by decide)

/-- C5: the input text is cleared exactly on success: a successful send of
either mode leaves the input empty; a failed send leaves it unchanged; the
whitespace no-op leaves it unchanged. -/
theorem C5_input_cleared_iff_success (u : User) (r : Recipient)
    (rt : String) (st : ChatState) (clk : SendClock) (m : Message)
    (answer : String) (sources : List Source)
    (rg : Except Unit (String × List Source)) (dr : Except Unit Message)
    (h : jsTrim st.newMessage ≠ "") :
    (sendMessage u r rt { st with queryMode := false } clk rg
        (Except.ok m)).1.newMessage = "" ∧
    (sendMessage u r rt { st with queryMode := true } clk
        (Except.ok (answer, sources)) dr).1.newMessage = "" ∧
    (sendMessage u r rt st clk (Except.error ())
        (Except.error ())).1.newMessage = st.newMessage ∧
    (∀ st2 : ChatState, jsTrim st2.newMessage = "" →
      (sendMessage u r rt st2 clk rg dr).1.newMessage = st2.newMessage) := by
  refine ⟨?_, ?_, ?_, ?_⟩
  · simp [sendMessage, h]
  · simp [sendMessage, h]
  · by_cases hq : st.queryMode <;> simp [sendMessage, hq, h]
  · intro st2 h2
    simp [sendMessage, h2]

/-- C5 witness: cleared on the two success paths, preserved on failure and
on the whitespace no-op, at concrete inputs. -/
theorem C5_input_cleared_iff_success_witness :
    (sendMessage ⟨"u"⟩ ⟨"r", "R"⟩ "user"
        { (⟨[], "hi", false, false⟩ : ChatState) with queryMode := false }
        ⟨7, 8, 2, 3⟩ (Except.error ())
        (Except.ok ⟨"m1", "d", "v", "r", 2, none⟩)).1.newMessage = "" ∧
    (sendMessage ⟨"u"⟩ ⟨"r", "R"⟩ "user"
        { (⟨[], "hi", false, false⟩ : ChatState) with queryMode := true }
        ⟨7, 8, 2, 3⟩ (Except.ok ("a", [])) (Except.error ())).1.newMessage
      = "" ∧
    (sendMessage ⟨"u"⟩ ⟨"r", "R"⟩ "user" ⟨[], "hi", false, false⟩
        ⟨7, 8, 2, 3⟩ (Except.error ()) (Except.error ())).1.newMessage
      = "hi" ∧
    (sendMessage ⟨"u"⟩ ⟨"r", "R"⟩ "user" ⟨[], " ", false, false⟩
        ⟨7, 8, 2, 3⟩ (Except.error ())
        (Except.ok ⟨"m1", "d", "v", "r", 2, none⟩)).1.newMessage = " " := by
  have h := C5_input_cleared_iff_success ⟨"u"⟩ ⟨"r", "R"⟩ "user"
    ⟨[], "hi", false, false⟩ ⟨7, 8, 2, 3⟩ ⟨"m1", "d", "v", "r", 2, none⟩
    "a" [] (Except.error ()) (Except.ok ⟨"m1", "d", "v", "r", 2, none⟩)
    (by decide)
  exact ⟨h.1, h.2.1, h.2.2.1, h.2.2.2 ⟨[], " ", false, false⟩ (by decide)⟩

/-- C7: the source list under a RAG response itemizes exactly min(N, 3)
sources in order; when N > 3 a single summary entry "+{N-3} more sources"
follows; a source whose type is neither message nor document_chunk renders
the literal "Unknown source". -/
theorem C7_source_rendering (sources : List Source) :
    (sources.length ≤ 3 → renderSources sources = sources.map renderSource) ∧
    (3 < sources.length →
      renderSources sources =
        (sources.take 3).map renderSource ++
          ["+" ++ toString (sources.length - 3) ++ " more sources"]) ∧
    (renderSources sources).length
      = min sources.length 3 + (if 3 < sources.length then 1 else 0) ∧
    (∀ s : Source, s.type ≠ "message" → s.type ≠ "document_chunk" →
      renderSource s = "Unknown source") := by
  refine ⟨?_, ?_, ?_, ?_⟩
  · intro h3
    simp [renderSources, Nat.not_lt.mpr h3, List.take_of_length_le h3]
  · intro h3
    simp [renderSources, h3]
  · by_cases h3 : 3 < sources.length <;>
      simp [renderSources, h3, List.length_take] <;> omega
  · intro s hm hd
    simp [renderSource, hm, hd]

/-- C7 witness: four concrete sources, one of unknown type, render as the
first three itemized entries plus the "+1 more sources" summary. -/
theorem C7_source_rendering_witness :
    renderSources [⟨"message", "u1", "", 0⟩, ⟨"document_chunk", "", "doc", 2⟩,
        ⟨"weird", "", "", 0⟩, ⟨"message", "u2", "", 0⟩]
      = ([⟨"message", "u1", "", 0⟩, ⟨"document_chunk", "", "doc", 2⟩,
          ⟨"weird", "", "", 0⟩, ⟨"message", "u2", "", 0⟩].take 3).map
            renderSource ++
        ["+" ++
            toString
              (([⟨"message", "u1", "", 0⟩, ⟨"document_chunk", "", "doc", 2⟩,
                ⟨"weird", "", "", 0⟩,
                ⟨"message", "u2", "", 0⟩] : List Source).length - 3) ++
          " more sources"] :=
  (C7_source_rendering [⟨"message", "u1", "", 0⟩,
    ⟨"document_chunk", "", "doc", 2⟩, ⟨"weird", "", "", 0⟩,
    ⟨"message", "u2", "", 0⟩]).2.1 (by decide)

/-- C8: the session guard redirects to /login exactly when the token is
absent or empty (a total function, so no exception), and renders the
protected children for any present non-empty token. -/
theorem C8_session_guard {α : Type} (children : α) (token : Option String)
    (t : String) (habs : token = none ∨ token = some "") (ht : t ≠ "") :
    protectedRoute token children = Rendered.redirect "/login" ∧
    protectedRoute (some t) children = Rendered.content children := by
  constructor
  · rcases habs with h | h <;> simp [protectedRoute, h]
  · simp [protectedRoute, ht]

/-- C8 witness: absent token redirects, a concrete token renders the
children. -/
theorem C8_session_guard_witness :
    protectedRoute (none : Option String) (0 : Nat)
        = Rendered.redirect "/login" ∧
    protectedRoute (some "tok") (0 : Nat) = Rendered.content 0 :=
  C8_session_guard 0 none "tok" (Or.inl rfl) (by decide)

/-- C9: the root path redirects to /dashboard, every path outside the
closed set of defined patterns redirects to /dashboard, and route matching
is total (no 404 state is reachable). -/
theorem C9_router_catch_all :
    matchRoute [] = some (RouteResult.redirect "/dashboard") ∧
    (∀ segs : List String, ¬ definedPath segs →
      matchRoute segs = some (RouteResult.redirect "/dashboard")) ∧
    (∀ segs : List String, (matchRoute segs).isSome = true) := by
  refine ⟨rfl, ?_, ?_⟩
  · intro segs hnd
    rcases segs with _ | ⟨a, _ | ⟨b, _ | ⟨c, rest⟩⟩⟩
    · rfl
    · have h1 : a ≠ "login" := fun h => hnd (Or.inl (by rw [h]))
      have h2 : a ≠ "signup" := fun h => hnd (Or.inr (Or.inl (by rw [h])))
      have h3 : a ≠ "dashboard" :=
        fun h => hnd (Or.inr (Or.inr (Or.inl (by rw [h]))))
      simp [matchRoute, h1, h2, h3]
    · have h4 : a ≠ "groups" :=
        fun h => hnd (Or.inr (Or.inr (Or.inr (Or.inr (Or.inl ⟨b, by rw [h]⟩)))))
      have h5 : a ≠ "communities" :=
        fun h =>
          hnd (Or.inr (Or.inr (Or.inr (Or.inr (Or.inr (Or.inr ⟨b, by rw [h]⟩))))))
      simp [matchRoute, h4, h5]
    · rfl
  · intro segs
    rcases segs with _ | ⟨a, _ | ⟨b, _ | ⟨c, rest⟩⟩⟩
    · rfl
    · simp only [matchRoute]
      split_ifs <;> rfl
    · simp only [matchRoute]
      split_ifs <;> rfl
    · rfl

/-- C9 witness: a concrete unknown path redirects to /dashboard. -/
theorem C9_router_catch_all_witness :
    matchRoute ["nonexistent"] = some (RouteResult.redirect "/dashboard") :=
  C9_router_catch_all.2.1 ["nonexistent"] (by
    intro h
    rcases h with h | h | h | h | ⟨g, h⟩ | h | ⟨c, h⟩ <;> simp at h)
